import Mathlib

/-!
Shallow embedding of the price-driven heat-pump controller in src/app.py.

Numeric values (prices, thresholds, temperatures) are modelled as rationals.
Network interaction is modelled by passing the outcomes of the outbound
requests in explicitly, and by returning the list of outbound calls the
function issued, in order.  A Python exception that escapes a function is
modelled with Except.error.
-/

/-- Outcome of a single HTTP request made through the requests library:
a transport-level failure (connection error or timeout), a response with a
non-2xx status (raise_for_status raises HTTPError), or a 2xx success.
Both failure shapes are subclasses of RequestException in the source. -/
inductive ReqOutcome
  | transportErr
  | appError
  | success
deriving DecidableEq, Repr

/-- An outbound network call issued by the actuator helpers in app.py:
the device-verification GET (users/me/pods) or the acStates POST carrying
the on flag and the targetTemperature of the JSON body. -/
inductive Call
  | verifyGet
  | statePost (isOn : Bool) (targetTemperature : ℚ)
deriving DecidableEq, Repr

/-- Environment for set_ac_state: the outcome of the verify GET and the
outcomes that successive acStates POST attempts would produce (the source
performs at most one attempt, so at most the head is consumed). -/
structure SensiboEnv where
  verify : ReqOutcome
  posts : List ReqOutcome
deriving DecidableEq, Repr

/-- Result of the single requests.post call in the source: True only when
the first (and only) attempt is a 2xx success; a transport error or a
non-2xx response raises RequestException, caught by the handler. -/
def postResult (posts : List ReqOutcome) : Bool :=
  match posts.head? with
  | some ReqOutcome.success => true
  | _ => false

/-- app.py set_ac_state (lines 45-96): first issues the device-verification
GET with raise_for_status; then, if turning on with a temperature below
MIN_TEMP, logs a warning and returns False; otherwise issues one acStates
POST whose targetTemperature is the given temperature when turning on and
DEFAULT_TEMP when turning off.  Any RequestException returns False.
Returns the Python return value and the ordered list of calls issued. -/
def set_ac_state (MIN_TEMP DEFAULT_TEMP : ℚ) (state : Bool) (temperature : ℚ)
    (env : SensiboEnv) : Bool × List Call :=
  match env.verify with
  | ReqOutcome.success =>
    if state = true ∧ temperature < MIN_TEMP then
      (false, [Call.verifyGet])
    else
      (postResult env.posts,
        [Call.verifyGet,
         Call.statePost state (if state then temperature else DEFAULT_TEMP)])
  | _ => (false, [Call.verifyGet])

/-- True exactly on the acStates POST calls in a trace. -/
def isStatePost : Call → Bool
  | Call.statePost _ _ => true
  | _ => false

/-- app.py set_ac_temperature (lines 99-130): issues a single acStates POST
with on set to True and the given targetTemperature; returns True on a 2xx
response and False on any RequestException.  No verify GET is made and no
minimum-temperature check is performed. -/
def set_ac_temperature (temperature : ℚ) (posts : List ReqOutcome) :
    Bool × List Call :=
  (postResult posts, [Call.statePost true temperature])

/-- A JSON value as the route handlers see it after request.get_json():
a number, a string parseable as a float (numStr carries its value), a
boolean, a string float() and int() reject, null, or another shape
(array/object). -/
inductive JVal
  | num (q : ℚ)
  | numStr (q : ℚ)
  | boolv (b : Bool)
  | badStr
  | nullv
  | other
deriving DecidableEq, Repr

/-- Python float() on a JSON value: numbers and numeric strings convert,
booleans convert to 1.0/0.0, everything else raises ValueError or
TypeError (both caught together in set_terskel). -/
def jToFloat : JVal → Option ℚ
  | JVal.num q => some q
  | JVal.numStr q => some q
  | JVal.boolv b => some (if b then 1 else 0)
  | _ => none

/-- Python exceptions that matter for the set_temperature route, which
catches ValueError but not TypeError. -/
inductive PyErr
  | valueError
  | typeError
deriving DecidableEq, Repr

/-- Python int() truncates toward zero. -/
def pyTrunc (q : ℚ) : ℤ := Int.tdiv q.num q.den

/-- Python int() on a JSON value: numbers truncate toward zero, integral
numeric strings parse (fractional ones raise ValueError), booleans give
1/0, non-numeric strings raise ValueError, null and other shapes raise
TypeError. -/
def jToInt : JVal → Except PyErr ℤ
  | JVal.num q => Except.ok (pyTrunc q)
  | JVal.numStr q =>
      if q.den = 1 then Except.ok q.num else Except.error PyErr.valueError
  | JVal.boolv b => Except.ok (if b then 1 else 0)
  | JVal.badStr => Except.error PyErr.valueError
  | JVal.nullv => Except.error PyErr.typeError
  | JVal.other => Except.error PyErr.typeError

/-- The mutable module-level threshold globals pris_start and pris_stopp of
app.py (lines 29-30). -/
structure Thresholds where
  pris_start : ℚ
  pris_stopp : ℚ
deriving DecidableEq, Repr

/-- The JSON body of a POST to /api/set_terskel: each field is present
(some) or absent (none). -/
structure TerskelBody where
  pris_start : Option JVal
  pris_stopp : Option JVal
deriving DecidableEq, Repr

/-- app.py set_terskel (lines 184-211): rejects a missing body or missing
keys with 400; converts both values with float() (a ValueError or
TypeError gives 400); rejects non-positive values with 400; rejects
start >= stop with 400; otherwise assigns both globals and returns 200.
Returns the globals after the call and the HTTP status. -/
def set_terskel (st : Thresholds) (body : Option TerskelBody) : Thresholds × ℕ :=
  match body with
  | none => (st, 400)
  | some d =>
    match d.pris_start, d.pris_stopp with
    | some vs, some ve =>
      match jToFloat vs, jToFloat ve with
      | some ns, some ne =>
        if ns ≤ 0 ∨ ne ≤ 0 then (st, 400)
        else if ns ≥ ne then (st, 400)
        else (⟨ns, ne⟩, 200)
      | _, _ => (st, 400)
    | _, _ => (st, 400)

/-- The pair of float() conversions set_terskel performs: some (start, stop)
when both keys are present and both convert, none otherwise. -/
def parsedReq : Option TerskelBody → Option (ℚ × ℚ)
  | none => none
  | some d =>
    match d.pris_start, d.pris_stopp with
    | some vs, some ve =>
      match jToFloat vs, jToFloat ve with
      | some ns, some ne => some (ns, ne)
      | _, _ => none
    | _, _ => none

/-- The durable configuration the process reads at start: the PRIS_START and
PRIS_STOPP environment variables (integer-valued when present).  Nothing in
app.py ever writes them. -/
structure Env where
  PRIS_START : Option ℤ
  PRIS_STOPP : Option ℤ
deriving DecidableEq, Repr

/-- app.py lines 29-30: the threshold globals are initialised from the
environment with defaults 5 and 10. -/
def initThresholds (env : Env) : Thresholds :=
  ⟨((env.PRIS_START.getD 5 : ℤ) : ℚ), ((env.PRIS_STOPP.getD 10 : ℤ) : ℚ)⟩

/-- Whole-process view: the in-memory threshold globals together with the
environment they were booted from. -/
structure ProcState where
  thresholds : Thresholds
  env : Env
deriving DecidableEq, Repr

/-- Process start: module import runs lines 29-30, reading the environment. -/
def bootProc (env : Env) : ProcState := ⟨initThresholds env, env⟩

/-- set_terskel at process level: it mutates only the in-memory globals; no
write to the environment or to any file or database appears in app.py. -/
def set_terskel_proc (ps : ProcState) (body : Option TerskelBody) :
    ProcState × ℕ :=
  ((⟨(set_terskel ps.thresholds body).1, ps.env⟩ : ProcState),
    (set_terskel ps.thresholds body).2)

/-- A process restart re-imports the module, rereading the environment. -/
def restartProc (ps : ProcState) : ProcState := bootProc ps.env

/-- One hourly entry of the decoded price-feed JSON list: a dict carrying a
numeric SEK_per_kWh field, or an entry from which reading that field raises
(missing key, non-dict entry, or non-numeric value). -/
inductive PriceEntry
  | entry (sekPerKWh : ℚ)
  | bad
deriving DecidableEq, Repr

/-- The decoded JSON body of the price-feed response: a list of hourly
entries, or some other JSON shape (the isinstance check fails). -/
inductive FeedBody
  | list (entries : List PriceEntry)
  | nonList
deriving DecidableEq, Repr

/-- The price-feed HTTP exchange: a RequestException (network error,
timeout, non-2xx via raise_for_status, or a JSON decode failure, which
requests raises as a RequestException subclass), or a decoded body. -/
inductive FeedResp
  | reqErr
  | ok (body : FeedBody)
deriving DecidableEq, Repr

/-- A command hent_strompris sends to the heat pump through
slå_av_varmepumpe / slå_på_varmepumpe. -/
inductive Cmd
  | turnOff
  | turnOn
deriving DecidableEq, Repr

/-- Python round() to zero decimal places: round-half-to-even. -/
def roundHalfEven (q : ℚ) : ℤ :=
  if q - (⌊q⌋ : ℚ) < 1 / 2 then ⌊q⌋
  else if 1 / 2 < q - (⌊q⌋ : ℚ) then ⌊q⌋ + 1
  else if ⌊q⌋ % 2 = 0 then ⌊q⌋ else ⌊q⌋ + 1

/-- Python round(x, 2): round half to even at the second decimal place. -/
def pyRound2 (x : ℚ) : ℚ := (roundHalfEven (x * 100) : ℚ) / 100

/-- app.py lines 153-161: the threshold check hent_strompris runs on the
converted price — above pris_stopp it calls slå_av_varmepumpe, strictly
below pris_start it calls slå_på_varmepumpe, otherwise it issues nothing. -/
def hysteresisCmds (pris pris_start pris_stopp : ℚ) : List Cmd :=
  if pris_stopp < pris then [Cmd.turnOff]
  else if pris < pris_start then [Cmd.turnOn]
  else []

/-- app.py hent_strompris (lines 132-170): fetches the day's price list;
any RequestException returns None; a non-list body or a list with at most
hour entries returns None; otherwise it reads SEK_per_kWh of the entry at
the current hour (an ill-formed entry raises an uncaught KeyError or
TypeError), converts with round(price * 100, 2), runs the threshold check
and returns the price.  The result carries the returned value (None as
none) and the heat-pump commands issued; Except.error marks an uncaught
exception escaping the function. -/
def hent_strompris (hour : ℕ) (pris_start pris_stopp : ℚ) (resp : FeedResp) :
    Except String (Option ℚ × List Cmd) :=
  match resp with
  | FeedResp.reqErr => Except.ok (none, [])
  | FeedResp.ok FeedBody.nonList => Except.ok (none, [])
  | FeedResp.ok (FeedBody.list entries) =>
    if h : hour < entries.length then
      match entries.get ⟨hour, h⟩ with
      | PriceEntry.bad => Except.error "KeyError"
      | PriceEntry.entry v =>
        Except.ok (some (pyRound2 (v * 100)),
          hysteresisCmds (pyRound2 (v * 100)) pris_start pris_stopp)
    else Except.ok (none, [])

/-- app.py strompris route (lines 225-239): calls hent_strompris inside a
broad except that maps any exception to a 500; a None price gives 500,
otherwise 200 with the price.  The commands hent_strompris issued are kept
in the result (none are issued before its error or None returns). -/
def strompris (hour : ℕ) (pris_start pris_stopp : ℚ) (resp : FeedResp) :
    ℕ × Option ℚ × List Cmd :=
  match hent_strompris hour pris_start pris_stopp resp with
  | Except.error _ => (500, none, [])
  | Except.ok (none, cmds) => (500, none, cmds)
  | Except.ok (some p, cmds) => (200, some p, cmds)

/-- Effect of one heat-pump command on the device power state. -/
def applyCmd (_prev : Bool) : Cmd → Bool
  | Cmd.turnOff => false
  | Cmd.turnOn => true

/-- Device power state after a list of commands, from a previous state. -/
def runCmds (s : Bool) (cs : List Cmd) : Bool := cs.foldl applyCmd s

/-- HTTP result of the set_temperature route: 200, 400, 500, or an
exception escaping the handler (TypeError is not caught there). -/
inductive RouteStatus
  | s200
  | s400
  | s500
  | uncaughtExc
deriving DecidableEq, Repr

/-- app.py set_temperature route (lines 242-258): a missing body or missing
temperature key gives 400; int() is applied to the value (ValueError gives
400, TypeError escapes); a value outside 16..30 gives 400; otherwise
set_ac_temperature is called, 200 on success and 500 on failure.  The outer
Option marks the body, the inner one the temperature key. -/
def set_temperature (body : Option (Option JVal)) (posts : List ReqOutcome) :
    RouteStatus × List Call :=
  match body with
  | none => (RouteStatus.s400, [])
  | some none => (RouteStatus.s400, [])
  | some (some v) =>
    match jToInt v with
    | Except.error PyErr.valueError => (RouteStatus.s400, [])
    | Except.error PyErr.typeError => (RouteStatus.uncaughtExc, [])
    | Except.ok t =>
      if 16 ≤ t ∧ t ≤ 30 then
        ((if (set_ac_temperature (t : ℚ) posts).1 then RouteStatus.s200
          else RouteStatus.s500),
         (set_ac_temperature (t : ℚ) posts).2)
      else (RouteStatus.s400, [])

/-- True exactly when the fetch returned (no uncaught exception). -/
def exOk {α : Type} : Except String α → Bool
  | Except.ok _ => true
  | Except.error _ => false

/-- The entry the fetch would select, if present, reads without raising. -/
def goodAtHour (hour : ℕ) : FeedResp → Prop
  | FeedResp.ok (FeedBody.list l) =>
      ∀ hl : hour < l.length, l.get ⟨hour, hl⟩ ≠ PriceEntry.bad
  | _ => True

/-- C1: with thresholds start < stop, the decision issued by the price check
turns the pump on when the price is strictly below start, off when strictly
above stop, and in the dead zone start ≤ price ≤ stop (both boundaries
included, the comparisons being strict) issues no command, so the previous
device state — off for a device never commanded — is held. -/
theorem C1_hysteresis_decision (p s e : ℚ) (prev : Bool) (h : s < e) :
    (p < s → runCmds prev (hysteresisCmds p s e) = true) ∧
    (e < p → runCmds prev (hysteresisCmds p s e) = false) ∧
    (s ≤ p → p ≤ e → hysteresisCmds p s e = [] ∧
      runCmds prev (hysteresisCmds p s e) = prev) := by
  unfold hysteresisCmds
  refine ⟨?_, ?_, fun h1 h2 => ?_⟩
  · intro hp
    rw [if_neg (by linarith), if_pos hp]
    rfl
  · intro hp
    rw [if_pos hp]
    rfl
  · rw [if_neg (by linarith), if_neg (by linarith)]
    exact ⟨rfl, rfl⟩

/-- C1 witness: price 7 with thresholds (5, 10) lies in the dead zone, so no
command is issued and a running pump stays running. -/
theorem C1_hysteresis_decision_witness :
    hysteresisCmds 7 5 10 = [] ∧ runCmds true (hysteresisCmds 7 5 10) = true :=
  (C1_hysteresis_decision 7 5 10 true (by norm_num)).2.2 (by norm_num)
    (by norm_num)

/-- C5: when the feed body is a list with fewer than hour + 1 entries, the
fetch returns None (no price, no sentinel) and issues no heat-pump command. -/
theorem C5_short_feed_no_actuation (hour : ℕ) (s e : ℚ)
    (entries : List PriceEntry) (h : entries.length < hour + 1) :
    hent_strompris hour s e (FeedResp.ok (FeedBody.list entries)) =
      Except.ok (none, []) := by
  simp only [hent_strompris]
  rw [dif_neg (by omega)]

/-- C5 witness: 20 entries at hour 21 yield None and no actuation. -/
theorem C5_short_feed_no_actuation_witness :
    hent_strompris 21 5 10
      (FeedResp.ok (FeedBody.list (List.replicate 20 (PriceEntry.entry 1)))) =
      Except.ok (none, []) :=
  C5_short_feed_no_actuation 21 5 10 _ (by decide)

/-- C6 counterexample: a one-entry list whose entry lacks the SEK_per_kWh
field makes the fetch raise an uncaught KeyError at hour 0 instead of
returning PriceUnavailable, refuting totality over all response shapes. -/
theorem C6_counterexample :
    hent_strompris 0 5 10 (FeedResp.ok (FeedBody.list [PriceEntry.bad])) =
      Except.error "KeyError" := rfl

/-- C6 amended: the fetch returns without raising on every network or
timeout error, malformed (non-list) body, or too-short list — those all
yield None — but it is total only when the entry selected for the current
hour, if any, carries a well-formed price field; an ill-formed selected
entry raises out of the fetch. -/
theorem C6_total_unless_bad_entry (hour : ℕ) (s e : ℚ) (resp : FeedResp)
    (h : goodAtHour hour resp) :
    exOk (hent_strompris hour s e resp) = true ∧
    ((resp = FeedResp.reqErr ∨ resp = FeedResp.ok FeedBody.nonList) →
      hent_strompris hour s e resp = Except.ok (none, [])) := by
  constructor
  · match resp with
    | FeedResp.reqErr => rfl
    | FeedResp.ok FeedBody.nonList => rfl
    | FeedResp.ok (FeedBody.list entries) =>
      simp only [hent_strompris]
      by_cases hl : hour < entries.length
      · rw [dif_pos hl]
        cases hE : entries.get ⟨hour, hl⟩ with
        | bad => exact absurd hE (h hl)
        | entry v => rfl
      · rw [dif_neg hl]
        rfl
  · rintro (rfl | rfl) <;> rfl

/-- C6 amended witness: a network error yields None without raising. -/
theorem C6_total_unless_bad_entry_witness :
    hent_strompris 0 5 10 FeedResp.reqErr = Except.ok (none, []) :=
  (C6_total_unless_bad_entry 0 5 10 FeedResp.reqErr trivial).2 (Or.inl rfl)

/-- C8: the GET current-price route is not effect-free — whenever the fetch
succeeds with price p and thresholds start < stop, the route returns 200
with p and the fetch itself has already issued the off command when p is
strictly above stop and the on command when p is strictly below start. -/
theorem C8_price_fetch_actuates (hour : ℕ) (s e : ℚ) (resp : FeedResp)
    (p : ℚ) (cmds : List Cmd) (h : s < e)
    (hr : hent_strompris hour s e resp = Except.ok (some p, cmds)) :
    strompris hour s e resp = (200, some p, cmds) ∧
    (e < p → cmds = [Cmd.turnOff]) ∧
    (p < s → cmds = [Cmd.turnOn]) := by
  have hcmd : cmds = hysteresisCmds p s e := by
    match resp with
    | FeedResp.reqErr => simp [hent_strompris] at hr
    | FeedResp.ok FeedBody.nonList => simp [hent_strompris] at hr
    | FeedResp.ok (FeedBody.list entries) =>
      simp only [hent_strompris] at hr
      by_cases hl : hour < entries.length
      · rw [dif_pos hl] at hr
        cases hE : entries.get ⟨hour, hl⟩ with
        | bad => rw [hE] at hr; exact absurd hr (by simp)
        | entry v =>
          rw [hE] at hr
          have h1 : pyRound2 (v * 100) = p := by
            have := congrArg (fun x => match x with
              | Except.ok (some q, _) => q
              | _ => (0 : ℚ)) hr
            simpa using this
          have h2 : hysteresisCmds (pyRound2 (v * 100)) s e = cmds := by
            have := congrArg (fun x => match x with
              | Except.ok (_, cs) => cs
              | _ => ([] : List Cmd)) hr
            simpa using this
          rw [← h2, h1]
      · rw [dif_neg hl] at hr
        exact absurd hr (by simp)
  refine ⟨?_, ?_, ?_⟩
  · unfold strompris
    rw [hr]
  · intro hp
    rw [hcmd]
    unfold hysteresisCmds
    rw [if_pos hp]
  · intro hp
    rw [hcmd]
    unfold hysteresisCmds
    rw [if_neg (by linarith), if_pos hp]

/-- C8 witness: a feed entry of 0.11 SEK/kWh at hour 0 converts to 11
öre/kWh, above the stop threshold 10, so the GET returns 200 with the
price and has already commanded the pump off. -/
theorem C8_price_fetch_actuates_witness :
    strompris 0 5 10 (FeedResp.ok (FeedBody.list [PriceEntry.entry (11 / 100)])) =
      (200, some 11, [Cmd.turnOff]) :=
  (C8_price_fetch_actuates 0 5 10
    (FeedResp.ok (FeedBody.list [PriceEntry.entry (11 / 100)])) 11 [Cmd.turnOff]
    (by norm_num)
    (by norm_num [hent_strompris, pyRound2, roundHalfEven, hysteresisCmds])).1

/-- C2: a threshold update whose parsed values violate positivity or
start < stop is rejected with 400 and leaves the stored globals unchanged,
and the globals change only when an update with 0 < start < stop is
accepted, in which case they become exactly the requested pair. -/
theorem C2_threshold_update_guarded (st : Thresholds) (body : Option TerskelBody) :
    (∀ a b, parsedReq body = some (a, b) → (b ≤ a ∨ a ≤ 0 ∨ b ≤ 0) →
      set_terskel st body = (st, 400)) ∧
    ((set_terskel st body).1 ≠ st →
      ∃ a b, parsedReq body = some (a, b) ∧ 0 < a ∧ a < b ∧
        set_terskel st body = (⟨a, b⟩, 200)) := by
  match body with
  | none => simp [set_terskel, parsedReq]
  | some d =>
    obtain ⟨os, oe⟩ := d
    cases os with
    | none => simp [set_terskel, parsedReq]
    | some vs =>
      cases oe with
      | none => simp [set_terskel, parsedReq]
      | some ve =>
        cases hf : jToFloat vs with
        | none => simp [set_terskel, parsedReq, hf]
        | some ns =>
          cases hg : jToFloat ve with
          | none => simp [set_terskel, parsedReq, hf, hg]
          | some ne =>
            simp only [set_terskel, parsedReq, hf, hg]
            by_cases h1 : ns ≤ 0 ∨ ne ≤ 0
            · rw [if_pos h1]
              exact ⟨fun a b _ _ => rfl, fun hne => absurd rfl hne⟩
            · rw [if_neg h1]
              by_cases h2 : ns ≥ ne
              · rw [if_pos h2]
                exact ⟨fun a b _ _ => rfl, fun hne => absurd rfl hne⟩
              · rw [if_neg h2]
                push_neg at h1 h2
                constructor
                · intro a b hab hbad
                  rw [Option.some_inj, Prod.mk.injEq] at hab
                  obtain ⟨rfl, rfl⟩ := hab
                  rcases hbad with hb | hb | hb
                  · exact absurd hb (not_le.mpr h2)
                  · exact absurd hb (not_le.mpr h1.1)
                  · exact absurd hb (not_le.mpr h1.2)
                · intro _
                  exact ⟨ns, ne, rfl, h1.1, h2, rfl⟩

/-- C2 witness: the request (start 12, stop 6) against stored (5, 10) is
rejected with 400 and the globals stay (5, 10). -/
theorem C2_threshold_update_guarded_witness :
    set_terskel ⟨5, 10⟩ (some ⟨some (JVal.num 12), some (JVal.num 6)⟩) =
      (⟨5, 10⟩, 400) :=
  (C2_threshold_update_guarded ⟨5, 10⟩
      (some ⟨some (JVal.num 12), some (JVal.num 6)⟩)).1 12 6 rfl
    (Or.inl (by norm_num))

/-- C3 counterexample: setState(true, 8) with minimum 10, against a device
that answers the verification GET, is rejected — but the trace already
holds the verification GET, so a network call was made before the
rejection, refuting that no network call precedes it. -/
theorem C3_counterexample :
    set_ac_state 10 22 true 8 ⟨ReqOutcome.success, [ReqOutcome.success]⟩ =
      (false, [Call.verifyGet]) ∧
    (set_ac_state 10 22 true 8
        ⟨ReqOutcome.success, [ReqOutcome.success]⟩).2 ≠ [] := by
  constructor
  · simp [set_ac_state]
    norm_num
  · simp [set_ac_state]
    norm_num

/-- C3 amended: turning on with a setpoint below the minimum returns False
and the state-change POST is never issued, but the rejection happens only
after the device-verification GET has been sent (and only when that GET
succeeded; a failed GET returns False before the check is reached). -/
theorem C3_rejected_before_post (M D t : ℚ) (env : SensiboEnv) (h : t < M) :
    (set_ac_state M D true t env).1 = false ∧
    (∀ b tt, Call.statePost b tt ∉ (set_ac_state M D true t env).2) ∧
    (env.verify = ReqOutcome.success →
      (set_ac_state M D true t env).2 = [Call.verifyGet]) := by
  obtain ⟨v, posts⟩ := env
  cases v with
  | success =>
    have hs : set_ac_state M D true t ⟨ReqOutcome.success, posts⟩ =
        (false, [Call.verifyGet]) := by
      simp [set_ac_state, h]
    rw [hs]
    refine ⟨rfl, ?_, fun _ => rfl⟩
    intro b tt hm
    simp at hm
  | transportErr =>
    refine ⟨rfl, ?_, fun _ => rfl⟩
    intro b tt hm
    simp [set_ac_state] at hm
  | appError =>
    refine ⟨rfl, ?_, fun _ => rfl⟩
    intro b tt hm
    simp [set_ac_state] at hm

/-- C3 amended witness: setState(true, 8) with minimum 10 and a reachable
device returns False with only the verification GET in the trace. -/
theorem C3_rejected_before_post_witness :
    (set_ac_state 10 22 true 8 ⟨ReqOutcome.success, [ReqOutcome.success]⟩).1 =
      false ∧
    (set_ac_state 10 22 true 8 ⟨ReqOutcome.success, [ReqOutcome.success]⟩).2 =
      [Call.verifyGet] :=
  ⟨(C3_rejected_before_post 10 22 8 ⟨ReqOutcome.success, [ReqOutcome.success]⟩
      (by norm_num)).1,
   (C3_rejected_before_post 10 22 8 ⟨ReqOutcome.success, [ReqOutcome.success]⟩
      (by norm_num)).2.2 rfl⟩

/-- C7 counterexample: with MIN_TEMP 10, a setState(true, 22) call whose
first POST attempt fails at transport level while a second attempt would
succeed still returns False after exactly one POST — the transient
transport failure is not retried. -/
theorem C7_counterexample :
    set_ac_state 10 22 true 22
        ⟨ReqOutcome.success, [ReqOutcome.transportErr, ReqOutcome.success]⟩ =
      (false, [Call.verifyGet, Call.statePost true 22]) ∧
    (set_ac_state 10 22 true 22
        ⟨ReqOutcome.success,
          [ReqOutcome.transportErr, ReqOutcome.success]⟩).2.countP isStatePost =
      1 := by
  have h1 : set_ac_state 10 22 true 22
      ⟨ReqOutcome.success, [ReqOutcome.transportErr, ReqOutcome.success]⟩ =
      (false, [Call.verifyGet, Call.statePost true 22]) := by
    simp [set_ac_state, postResult]
    norm_num
  refine ⟨h1, ?_⟩
  rw [h1]
  decide

/-- C7 amended: no automatic retries exist — every call issues at most one
state-change POST, the outcome never depends on what later attempts would
return, and a first attempt failing either as a transport error or as a
non-2xx response makes the call return False immediately. -/
theorem C7_single_attempt_no_retry (M D : ℚ) (s : Bool) (t : ℚ)
    (env : SensiboEnv) :
    ((set_ac_state M D s t env).2.countP isStatePost ≤ 1) ∧
    (∀ o rest, set_ac_state M D s t ⟨env.verify, o :: rest⟩ =
        set_ac_state M D s t ⟨env.verify, [o]⟩) ∧
    (env.posts.head? = some ReqOutcome.appError →
      (set_ac_state M D s t env).1 = false) ∧
    (env.posts.head? = some ReqOutcome.transportErr →
      (set_ac_state M D s t env).1 = false) := by
  obtain ⟨v, posts⟩ := env
  cases v with
  | success =>
    by_cases hc : s = true ∧ t < M
    · refine ⟨?_, fun o rest => ?_, fun _ => ?_, fun _ => ?_⟩ <;>
        simp [set_ac_state, if_pos hc, List.countP_nil, List.countP_cons,
          isStatePost]
    · refine ⟨?_, fun o rest => ?_, fun hp => ?_, fun hp => ?_⟩
      · simp [set_ac_state, if_neg hc, List.countP_nil, List.countP_cons,
          isStatePost]
      · simp [set_ac_state, if_neg hc, postResult]
      · simp [set_ac_state, if_neg hc, postResult, hp]
      · simp [set_ac_state, if_neg hc, postResult, hp]
  | transportErr =>
    exact ⟨by simp [set_ac_state, List.countP_nil, List.countP_cons, isStatePost],
      fun o rest => rfl, fun _ => rfl, fun _ => rfl⟩
  | appError =>
    exact ⟨by simp [set_ac_state, List.countP_nil, List.countP_cons, isStatePost],
      fun o rest => rfl, fun _ => rfl, fun _ => rfl⟩

/-- C7 amended witness: a non-2xx first attempt yields False with a single
POST in the trace. -/
theorem C7_single_attempt_no_retry_witness :
    ((set_ac_state 10 22 true 22
        ⟨ReqOutcome.success, [ReqOutcome.appError]⟩).2.countP isStatePost ≤ 1) ∧
    (set_ac_state 10 22 true 22 ⟨ReqOutcome.success, [ReqOutcome.appError]⟩).1 =
      false :=
  ⟨(C7_single_attempt_no_retry 10 22 true 22
      ⟨ReqOutcome.success, [ReqOutcome.appError]⟩).1,
   (C7_single_attempt_no_retry 10 22 true 22
      ⟨ReqOutcome.success, [ReqOutcome.appError]⟩).2.2.1 rfl⟩

/-- C4 counterexample: booting with no stored configuration gives (5, 10);
the update to (6, 12) is accepted with 200 and the in-memory globals become
(6, 12); yet after a process restart the loaded configuration is (5, 10)
again — the accepted thresholds did not survive the restart, refuting
synchronous write-back to durable storage. -/
theorem C4_counterexample :
    (set_terskel_proc (bootProc ⟨none, none⟩)
        (some ⟨some (JVal.num 6), some (JVal.num 12)⟩)).2 = 200 ∧
    (set_terskel_proc (bootProc ⟨none, none⟩)
        (some ⟨some (JVal.num 6), some (JVal.num 12)⟩)).1.thresholds =
      ⟨6, 12⟩ ∧
    (restartProc (set_terskel_proc (bootProc ⟨none, none⟩)
        (some ⟨some (JVal.num 6), some (JVal.num 12)⟩)).1).thresholds =
      ⟨5, 10⟩ ∧
    (restartProc (set_terskel_proc (bootProc ⟨none, none⟩)
        (some ⟨some (JVal.num 6), some (JVal.num 12)⟩)).1).thresholds ≠
      (set_terskel_proc (bootProc ⟨none, none⟩)
        (some ⟨some (JVal.num 6), some (JVal.num 12)⟩)).1.thresholds := by
  refine ⟨?_, ?_, ?_, ?_⟩ <;>
    simp [set_terskel_proc, set_terskel, restartProc, bootProc, initThresholds,
      jToFloat, Thresholds.mk.injEq] <;> norm_num

/-- C4 amended: threshold updates mutate only the in-process globals — the
durable environment configuration is never written, so the state loaded
after a restart is the same whether or not an update was accepted in
between, and with no stored values the load yields the documented default
(5, 10). -/
theorem C4_thresholds_not_persisted (ps : ProcState) (body : Option TerskelBody) :
    (set_terskel_proc ps body).1.env = ps.env ∧
    restartProc (set_terskel_proc ps body).1 = restartProc ps ∧
    (bootProc ⟨none, none⟩).thresholds = ⟨5, 10⟩ := by
  refine ⟨rfl, rfl, ?_⟩
  simp [bootProc, initThresholds, Thresholds.mk.injEq]

/-- C9: the temperature route validates only 16 ≤ t ≤ 30 and then commands
the device on at t through a single POST; the configured minimum safe
temperature is checked nowhere on this path, so for every minimum above 16
there is an accepted setpoint strictly below it. -/
theorem C9_temp_route_ignores_min (t : ℤ) (posts : List ReqOutcome)
    (h16 : 16 ≤ t) (h30 : t ≤ 30) :
    (set_temperature (some (some (JVal.num (t : ℚ)))) posts).2 =
      [Call.statePost true (t : ℚ)] ∧
    (∀ M : ℚ, 16 < M → ∃ u : ℤ, 16 ≤ u ∧ u ≤ 30 ∧ (u : ℚ) < M ∧
      (set_temperature (some (some (JVal.num (u : ℚ)))) posts).2 =
        [Call.statePost true (u : ℚ)]) := by
  have key : ∀ u : ℤ, 16 ≤ u → u ≤ 30 →
      (set_temperature (some (some (JVal.num (u : ℚ)))) posts).2 =
        [Call.statePost true (u : ℚ)] := by
    intro u hu1 hu2
    have hpt : pyTrunc (u : ℚ) = u := by
      simp [pyTrunc, Rat.num_intCast, Rat.den_intCast]
    simp only [set_temperature, jToInt, hpt]
    rw [if_pos ⟨hu1, hu2⟩]
    rfl
  refine ⟨key t h16 h30, fun M hM => ⟨16, by norm_num, by norm_num, ?_, ?_⟩⟩
  · exact_mod_cast hM
  · exact key 16 (by norm_num) (by norm_num)

/-- C9 witness: with a configured minimum of 20, the setpoint 16 is accepted
and commanded on through the route. -/
theorem C9_temp_route_ignores_min_witness :
    ∃ u : ℤ, 16 ≤ u ∧ u ≤ 30 ∧ (u : ℚ) < 20 ∧
      (set_temperature (some (some (JVal.num (u : ℚ)))) [ReqOutcome.success]).2 =
        [Call.statePost true (u : ℚ)] :=
  (C9_temp_route_ignores_min 16 [ReqOutcome.success] (by norm_num)
      (by norm_num)).2 20 (by norm_num)

/-- C10: every acStates POST issued by a setState(false, t) call carries the
configured default temperature as targetTemperature, never the argument t
(and it is an off command). -/
theorem C10_off_sends_default_temp (M D t : ℚ) (env : SensiboEnv) (b : Bool)
    (tt : ℚ) (h : Call.statePost b tt ∈ (set_ac_state M D false t env).2) :
    b = false ∧ tt = D := by
  obtain ⟨v, posts⟩ := env
  cases v with
  | success =>
    simp [set_ac_state] at h
    exact h
  | transportErr => simp [set_ac_state] at h
  | appError => simp [set_ac_state] at h

/-- C10 witness: setState(false, 16) with default 22 posts an off command at
22, and the theorem recovers both facts from that trace membership. -/
theorem C10_off_sends_default_temp_witness :
    (set_ac_state 10 22 false 16 ⟨ReqOutcome.success, [ReqOutcome.success]⟩).2 =
      [Call.verifyGet, Call.statePost false 22] ∧
    (false = false ∧ (22 : ℚ) = 22) :=
  ⟨by simp [set_ac_state],
   C10_off_sends_default_temp 10 22 16
     ⟨ReqOutcome.success, [ReqOutcome.success]⟩ false 22
     (by simp [set_ac_state])⟩
